import Mathlib

set_option maxRecDepth 8192

/-!
Shallow embedding of `drivers/media/i2c/ar0144.c` (AR0144 image-sensor
driver) and verification of its specified behaviour.

Modelling conventions:
- 16-bit machine integers are `Nat` with explicit `% 65536` / `% 256`
  where the C code truncates.
- The i2c bus, the reset GPIO and the sleeping delays are modelled as an
  explicit trace of `Event`s; the outcomes of the bus primitives
  `i2c_master_send` / `i2c_master_recv` are supplied by an `Env` oracle
  indexed by the position of the transaction in the current operation.
- C functions returning `int` are modelled as returning `Int`
  (negative = errno, as in the kernel); `dev_err` logging is recorded as
  trace events.
- The driver's per-device mutable state (`struct ar0144`) is the record
  `Dev` holding exactly the mutable fields the code can touch: the
  active format `fmt`, the crop rectangle `crop` and the (declared but
  never used) `streaming` flag.  Each operation takes the state and
  returns it (possibly updated), mirroring the C functions that receive
  the `struct ar0144 *`.
-/

namespace AR0144

/-- Identity register address, from `#define AR0144_ID_REG 0x3000`. -/
def AR0144_ID_REG : Nat := 0x3000

/-- Expected identity value, from `#define AR0144_ID_VAL 0x1356`. -/
def AR0144_ID_VAL : Nat := 0x1356

/-- Kernel constant `MEDIA_BUS_FMT_SRGGB12_1X12` used by the driver. -/
def MEDIA_BUS_FMT_SRGGB12_1X12 : Nat := 0x3012

/-- Kernel constant `V4L2_FIELD_NONE`. -/
def V4L2_FIELD_NONE : Nat := 1

/-- Kernel constant `V4L2_COLORSPACE_SRGB`. -/
def V4L2_COLORSPACE_SRGB : Nat := 8

/-- Kernel constant `V4L2_SUBDEV_FORMAT_TRY` (value 0). -/
def V4L2_SUBDEV_FORMAT_TRY : Nat := 0

/-- Kernel constant `V4L2_SUBDEV_FORMAT_ACTIVE` (value 1). -/
def V4L2_SUBDEV_FORMAT_ACTIVE : Nat := 1

/-- Kernel constant `V4L2_SEL_TGT_CROP` (value 0). -/
def V4L2_SEL_TGT_CROP : Nat := 0

/-- Kernel errno `EINVAL`. -/
def EINVAL : Int := 22

/-- Kernel errno `ENODEV`. -/
def ENODEV : Int := 19

/-- One entry of a register program, `struct ar0144_reg_value`. -/
structure RegValue where
  reg : Nat
  val : Nat
deriving DecidableEq, Repr

/-- `ar0144at_rev4_recommended_setting[]`, transcribed from the source. -/
def ar0144at_rev4_recommended_setting : List RegValue :=
  [⟨0x3ED6, 0x3CB5⟩, ⟨0x3ED8, 0x8765⟩, ⟨0x3EDA, 0x8888⟩, ⟨0x3EDC, 0x97FF⟩,
   ⟨0x3EF8, 0x6522⟩, ⟨0x3EFA, 0x2222⟩, ⟨0x3EFC, 0x6666⟩, ⟨0x3F00, 0xAA05⟩,
   ⟨0x3EE2, 0x180E⟩, ⟨0x3EE4, 0x0808⟩, ⟨0x3EEA, 0x2A09⟩, ⟨0x3060, 0x000D⟩,
   ⟨0x3092, 0x00CF⟩, ⟨0x3268, 0x0030⟩, ⟨0x3786, 0x0060⟩, ⟨0x3F4A, 0x0F70⟩,
   ⟨0x306E, 0x4810⟩, ⟨0x3064, 0x1802⟩, ⟨0x3EF6, 0x804D⟩, ⟨0x3180, 0xC08F⟩,
   ⟨0x30BA, 0x7623⟩, ⟨0x3176, 0x0480⟩, ⟨0x3178, 0x0480⟩, ⟨0x317A, 0x0480⟩,
   ⟨0x317C, 0x0480⟩]

/-- `ar0144at_pll_27mhz[]`, transcribed from the source. -/
def ar0144at_pll_27mhz : List RegValue :=
  [⟨0x302A, 0x0006⟩, ⟨0x302C, 0x0001⟩, ⟨0x302E, 0x0004⟩,
   ⟨0x3030, 0x0042⟩, ⟨0x3036, 0x000C⟩, ⟨0x3038, 0x0001⟩]

/-- `ar0144at_mipi_2lane_12bit[]`, transcribed from the source. -/
def ar0144at_mipi_2lane_12bit : List RegValue :=
  [⟨0x31AE, 0x0202⟩, ⟨0x31AC, 0x0C0C⟩, ⟨0x31B0, 0x0042⟩,
   ⟨0x31B2, 0x002E⟩, ⟨0x31B4, 0x1665⟩, ⟨0x31B6, 0x110E⟩,
   ⟨0x31B8, 0x2047⟩, ⟨0x31BA, 0x0105⟩, ⟨0x31BC, 0x0004⟩]

/-- `ar0144at_1280x800_60fps[]`, transcribed from the source. -/
def ar0144at_1280x800_60fps : List RegValue :=
  [⟨0x3002, 0x0000⟩, ⟨0x3004, 0x0004⟩, ⟨0x3006, 0x031F⟩,
   ⟨0x3008, 0x0503⟩, ⟨0x300A, 0x0339⟩, ⟨0x300C, 0x05D0⟩,
   ⟨0x3012, 0x0064⟩, ⟨0x30A2, 0x0001⟩, ⟨0x30A6, 0x0001⟩,
   ⟨0x3040, 0x0000⟩]

/-- `ar0144at_context_b_2x2_binning[]`, transcribed from the source. -/
def ar0144at_context_b_2x2_binning : List RegValue :=
  [⟨0x3040, 0x1000⟩, ⟨0x30A8, 0x0003⟩, ⟨0x3040, 0x3000⟩, ⟨0x30AE, 0x0003⟩]

/-- `ar0144at_embedded_data_stats[]`, transcribed from the source. -/
def ar0144at_embedded_data_stats : List RegValue :=
  [⟨0x3064, 0x1982⟩]

/-- `ar0144at_start_stream[]`, transcribed from the source. -/
def ar0144at_start_stream : List RegValue :=
  [⟨0x3028, 0x0010⟩, ⟨0x301A, 0x005C⟩]

/-- `ar0144at_stop_stream[]`, transcribed from the source. -/
def ar0144at_stop_stream : List RegValue :=
  [⟨0x301A, 0x0058⟩]

/-- Observable actions of the driver: bus transactions, delays, reset-GPIO
toggles and `dev_err` diagnostics. -/
inductive Event where
  | i2cSend (bytes : List Nat)
  | i2cRecv (len : Nat)
  | sleepMs (ms : Nat)
  | gpiodDirectionOutput (value : Nat)
  | gpiodSetValue (value : Nat)
  | devErrWrite (ret : Int) (reg val : Nat)
  | devErrRead (ret : Int) (reg : Nat)
  | devErrId (actual expected : Nat)
deriving DecidableEq, Repr

/-- Oracle for the outcomes of the i2c primitives.  `sendRet n bytes` is
the return value of the n-th transaction of the running operation when it
is an `i2c_master_send` of `bytes`; `recvRet n` is the pair
(return value, received byte 0, received byte 1) when the n-th transaction
is an `i2c_master_recv` of two bytes. -/
structure Env where
  sendRet : Nat → List Nat → Int
  recvRet : Nat → Int × Nat × Nat

/-- Result of a write-side operation: C return value, event trace, and the
index the next bus transaction would get. -/
structure OpRes where
  ret   : Int
  trace : List Event
  next  : Nat
deriving DecidableEq, Repr

/-- Result of `ar0144_read_reg`: `Except` models the C idiom of a negative
return plus an out-parameter that is written only on success. -/
structure ReadRes where
  res   : Except Int Nat
  trace : List Event
  next  : Nat

/-- High byte of a 16-bit quantity (`reg >> 8` on a `u16`). -/
def hi8 (x : Nat) : Nat := x % 65536 / 256

/-- Low byte of a 16-bit quantity (`reg & 0xff`). -/
def lo8 (x : Nat) : Nat := x % 256

/-- The 4-byte frame `regbuf[]` built by `ar0144_write_reg`. -/
def writeFrame (reg val : Nat) : List Nat :=
  [hi8 reg, lo8 reg, hi8 val, lo8 val]

/-- `ar0144_write_reg`: serialize the 4-byte frame, send it, log on
negative return, and return the raw `i2c_master_send` result. -/
def ar0144_write_reg (env : Env) (n : Nat) (reg val : Nat) : OpRes :=
  let regbuf := writeFrame reg val
  let ret := env.sendRet n regbuf
  if ret < 0 then
    ⟨ret, [.i2cSend regbuf, .devErrWrite ret reg val], n + 1⟩
  else
    ⟨ret, [.i2cSend regbuf], n + 1⟩

/-- `ar0144_read_reg`: send the 2-byte big-endian address, then receive two
bytes and compose them big-endian (`*val = buf[0] << 8; *val |= buf[1] & 0xff`).
Returns 0 (`Except.ok`) on success, the raw negative bus result otherwise. -/
def ar0144_read_reg (env : Env) (n : Nat) (reg : Nat) : ReadRes :=
  let buf := [hi8 reg, lo8 reg]
  let ret := env.sendRet n buf
  if ret < 0 then
    ⟨.error ret, [.i2cSend buf, .devErrRead ret reg], n + 1⟩
  else
    let rr := env.recvRet (n + 1)
    if rr.1 < 0 then
      ⟨.error rr.1, [.i2cSend buf, .i2cRecv 2, .devErrRead rr.1 reg], n + 2⟩
    else
      ⟨.ok ((rr.2.1 % 256) <<< 8 ||| (rr.2.2 % 256)),
       [.i2cSend buf, .i2cRecv 2], n + 2⟩

/-- `ar0144_set_register_array`: apply the entries in order through
`ar0144_write_reg`, returning the first negative result immediately, and
0 after the loop completes. -/
def ar0144_set_register_array (env : Env) (n : Nat) (settings : List RegValue) :
    OpRes :=
  match settings with
  | [] => ⟨0, [], n⟩
  | s :: rest =>
    let w := ar0144_write_reg env n s.reg s.val
    if w.ret < 0 then ⟨w.ret, w.trace, w.next⟩
    else
      let r := ar0144_set_register_array env w.next rest
      ⟨r.ret, w.trace ++ r.trace, r.next⟩

/-- The trace that a register program produces when every write succeeds:
one send event per entry, in program order. -/
def sendsOf (settings : List RegValue) : List Event :=
  settings.map fun s => .i2cSend (writeFrame s.reg s.val)

/-- Whether an event is a bus transaction. -/
def isBusEvent : Event → Bool
  | .i2cSend _ => true
  | .i2cRecv _ => true
  | _ => false

/-- The payloads of the send events of a trace, in order. -/
def sendPayloads (t : List Event) : List (List Nat) :=
  t.filterMap fun e =>
    match e with
    | .i2cSend bytes => some bytes
    | _ => none

/-- `struct v4l2_mbus_framefmt`, restricted to the five fields the driver
writes in `ar0144_set_format`. -/
structure Fmt where
  width : Nat
  height : Nat
  code : Nat
  field : Nat
  colorspace : Nat
deriving DecidableEq, Repr

/-- `struct v4l2_rect`. -/
structure Rect where
  left : Nat
  top : Nat
  width : Nat
  height : Nat
deriving DecidableEq, Repr

/-- The mutable driver-owned fields of `struct ar0144`: the stored format
`fmt`, the stored crop rectangle `crop`, and the `streaming` flag (which
is declared in the struct but never read or written by any function). -/
structure Dev where
  fmt : Fmt
  crop : Rect
  streaming : Bool
deriving DecidableEq, Repr

/-- Result of an operation that receives the `struct ar0144 *`: the C
return value, the event trace, and the (possibly updated) device state. -/
structure DevOpRes where
  ret   : Int
  trace : List Event
  dev   : Dev
deriving DecidableEq, Repr

/-- The format `ar0144_set_format` stores: width 1280, height 800, the
single supported code, `V4L2_FIELD_NONE`, `V4L2_COLORSPACE_SRGB`. -/
def ar0144_default_fmt : Fmt :=
  { width := 1280, height := 800, code := MEDIA_BUS_FMT_SRGGB12_1X12,
    field := V4L2_FIELD_NONE, colorspace := V4L2_COLORSPACE_SRGB }

/-- `__ar0144_get_pad_format`: the switch maps both `V4L2_SUBDEV_FORMAT_TRY`
and `V4L2_SUBDEV_FORMAT_ACTIVE` to the same single storage `&ar0144->fmt`
(modelled as `some ()`), and any other value to `NULL` (`none`). -/
def __ar0144_get_pad_format (which : Nat) : Option Unit :=
  if which = V4L2_SUBDEV_FORMAT_TRY ∨ which = V4L2_SUBDEV_FORMAT_ACTIVE then
    some ()
  else
    none

/-- `__ar0144_get_pad_crop`: same switch shape as `__ar0144_get_pad_format`,
resolving both TRY and ACTIVE to the single storage `&ar0144->crop`. -/
def __ar0144_get_pad_crop (which : Nat) : Option Unit :=
  if which = V4L2_SUBDEV_FORMAT_TRY ∨ which = V4L2_SUBDEV_FORMAT_ACTIVE then
    some ()
  else
    none

/-- `ar0144_get_format`: copies the storage selected by
`__ar0144_get_pad_format` into the caller's argument and returns 0;
`none` models the NULL-pointer dereference for an invalid `which`. -/
def ar0144_get_format (dev : Dev) (which : Nat) : Option (Int × Fmt) :=
  match __ar0144_get_pad_format which with
  | some _ => some (0, dev.fmt)
  | none => none

/-- `ar0144_set_format`: overwrites the selected storage with the fixed
1280x800 single-code format, ignoring whatever the caller requested (the
C code never reads the requested fields), copies it back to the caller
and returns 0.  `none` models the NULL dereference for invalid `which`. -/
def ar0144_set_format (dev : Dev) (which : Nat) : Option (Int × Fmt × Dev) :=
  match __ar0144_get_pad_format which with
  | some _ => some (0, ar0144_default_fmt, { dev with fmt := ar0144_default_fmt })
  | none => none

/-- `ar0144_get_selection`: `-EINVAL` for any target other than
`V4L2_SEL_TGT_CROP`, otherwise the stored crop rectangle and return 0. -/
def ar0144_get_selection (dev : Dev) (target which : Nat) :
    Option (Except Int Rect) :=
  if target ≠ V4L2_SEL_TGT_CROP then
    some (Except.error (-EINVAL))
  else
    match __ar0144_get_pad_crop which with
    | some _ => some (Except.ok dev.crop)
    | none => none

/-- `ar0144_entity_init_cfg`: chooses TRY when a pad configuration is
present, ACTIVE otherwise, and calls `ar0144_set_format`; returns 0. -/
def ar0144_entity_init_cfg (dev : Dev) (cfgPresent : Bool) : Int × Dev :=
  let which := if cfgPresent then V4L2_SUBDEV_FORMAT_TRY
               else V4L2_SUBDEV_FORMAT_ACTIVE
  match ar0144_set_format dev which with
  | some (_, _, dev2) => (0, dev2)
  | none => (0, dev)

/-- Return value and trace of `ar0144_s_power`.  The C function only ever
touches the reset GPIO, the bus and the log through `ar0144->i2c_client` /
`ar0144->rst_gpio`; it reads and writes none of the mutable state fields,
so the computation is a function of the oracle and `on` alone. -/
def ar0144_s_power_core (env : Env) (onVal : Nat) : Int × List Event :=
  if onVal = 0 then
    (0, [.gpiodDirectionOutput 1])
  else
    let t1 : List Event :=
      [.gpiodDirectionOutput 1, .sleepMs 2, .gpiodSetValue 0, .sleepMs 10]
    let r := ar0144_read_reg env 0 AR0144_ID_REG
    match r.res with
    | .error e => (e, t1 ++ r.trace)
    | .ok v =>
      if v ≠ AR0144_ID_VAL then
        (-ENODEV, t1 ++ r.trace ++ [.devErrId v AR0144_ID_VAL])
      else
        let a := ar0144_set_register_array env r.next
                   ar0144at_rev4_recommended_setting
        (a.ret, t1 ++ r.trace ++ a.trace)

/-- `ar0144_s_power`: assert reset, and when powering on hold 2 ms, release
reset, hold 10 ms, read and check the identity register, then apply the
recommended-settings program.  The device state record is untouched. -/
def ar0144_s_power (env : Env) (onVal : Nat) (dev : Dev) : DevOpRes :=
  let c := ar0144_s_power_core env onVal
  ⟨c.1, c.2, dev⟩

/-- Return value and trace of `ar0144_s_stream`.  As with `ar0144_s_power`,
the C function reads and writes none of the mutable state fields. -/
def ar0144_s_stream_core (env : Env) (enable : Nat) : Int × List Event :=
  if enable = 0 then
    let a := ar0144_set_register_array env 0 ar0144at_stop_stream
    (a.ret, a.trace)
  else
    let p := ar0144_set_register_array env 0 ar0144at_pll_27mhz
    if p.ret < 0 then (p.ret, p.trace)
    else
      let t := p.trace ++ [.sleepMs 100]
      let m := ar0144_set_register_array env p.next ar0144at_mipi_2lane_12bit
      if m.ret < 0 then (m.ret, t ++ m.trace)
      else
        let g := ar0144_set_register_array env m.next ar0144at_1280x800_60fps
        if g.ret < 0 then (g.ret, t ++ m.trace ++ g.trace)
        else
          let b := ar0144_set_register_array env g.next
                     ar0144at_context_b_2x2_binning
          if b.ret < 0 then (b.ret, t ++ m.trace ++ g.trace ++ b.trace)
          else
            let d := ar0144_set_register_array env b.next
                       ar0144at_embedded_data_stats
            if d.ret < 0 then
              (d.ret, t ++ m.trace ++ g.trace ++ b.trace ++ d.trace)
            else
              let s := ar0144_set_register_array env d.next
                         ar0144at_start_stream
              (s.ret, t ++ m.trace ++ g.trace ++ b.trace ++ d.trace ++ s.trace)

/-- `ar0144_s_stream`: stop program when `enable == 0`; otherwise PLL,
100 ms delay, lane/format, geometry, binning, embedded-data and
start-stream programs in that order, aborting on the first failure.
The device state record is untouched. -/
def ar0144_s_stream (env : Env) (enable : Nat) (dev : Dev) : DevOpRes :=
  let c := ar0144_s_stream_core env enable
  ⟨c.1, c.2, dev⟩

/-- State-relevant effect of `ar0144_probe`: `devm_kzalloc` zero-fills the
whole `struct ar0144` (format, crop and streaming flag all zero), the
probe powers the sensor up with `ar0144_s_power(sd, true)` and fails if
that fails, and finally calls `ar0144_entity_init_cfg(sd, NULL)`, which
goes through `ar0144_set_format` with ACTIVE.  The framework-binding
steps (endpoint parsing, GPIO acquisition, subdev registration) do not
touch the driver-owned state and are omitted. -/
def ar0144_probe (env : Env) : Except Int Dev :=
  let dev0 : Dev := { fmt := ⟨0, 0, 0, 0, 0⟩, crop := ⟨0, 0, 0, 0⟩,
                      streaming := false }
  let p := ar0144_s_power env 1 dev0
  if p.ret < 0 then Except.error p.ret
  else Except.ok (ar0144_entity_init_cfg p.dev false).2

/-- A byte or-ed into the low bits of a shifted byte is just added. -/
theorem byte_lor (a b : Nat) (hb : b < 256) : a <<< 8 ||| b = a * 256 + b := by
  have h1 : a <<< 8 = 2 ^ 8 * a := by
    rw [Nat.shiftLeft_eq, Nat.mul_comm]
  rw [h1, ← Nat.mul_add_lt_is_or hb a]
  ring

/-- When every entry's write succeeds, the runner performs exactly one send
per entry, in program order, and returns 0. -/
theorem sra_ok (env : Env) (settings : List RegValue) (n : Nat)
    (h : ∀ i (hi : i < settings.length),
      0 ≤ env.sendRet (n + i)
        (writeFrame (settings.get ⟨i, hi⟩).reg (settings.get ⟨i, hi⟩).val)) :
    ar0144_set_register_array env n settings =
      ⟨0, sendsOf settings, n + settings.length⟩ := by
  induction settings generalizing n with
  | nil => simp [ar0144_set_register_array, sendsOf]
  | cons s rest ih =>
    have h0 : 0 ≤ env.sendRet n (writeFrame s.reg s.val) := by
      have := h 0 (by simp)
      simpa using this
    have hw : ar0144_write_reg env n s.reg s.val =
        ⟨env.sendRet n (writeFrame s.reg s.val),
         [.i2cSend (writeFrame s.reg s.val)], n + 1⟩ := by
      simp only [ar0144_write_reg]
      rw [if_neg (by omega)]
    have ihh := ih (n + 1) (fun i hi => by
      have := h (i + 1) (by simpa using Nat.succ_lt_succ hi)
      simpa [Nat.add_assoc, Nat.add_comm 1 i] using this)
    simp only [ar0144_set_register_array, hw, ihh]
    rw [if_neg (by simpa using h0)]
    simp [sendsOf, List.length_cons]
    omega

/-- When the writes before position `k = pre.length` succeed and the write
at position `k` fails with `e`, the runner performs exactly the sends for
positions 0..k, logs the failing address/value, returns the raw error `e`,
and never touches the remaining entries. -/
theorem sra_fail (env : Env) (pre : List RegValue) (s : RegValue)
    (post : List RegValue) (n : Nat) (e : Int)
    (h : ∀ i (hi : i < pre.length),
      0 ≤ env.sendRet (n + i)
        (writeFrame (pre.get ⟨i, hi⟩).reg (pre.get ⟨i, hi⟩).val))
    (hf : env.sendRet (n + pre.length) (writeFrame s.reg s.val) = e)
    (he : e < 0) :
    ar0144_set_register_array env n (pre ++ s :: post) =
      ⟨e, sendsOf pre ++
          [.i2cSend (writeFrame s.reg s.val), .devErrWrite e s.reg s.val],
       n + pre.length + 1⟩ := by
  induction pre generalizing n with
  | nil =>
    have hf0 : env.sendRet n (writeFrame s.reg s.val) = e := by simpa using hf
    simp only [List.nil_append, ar0144_set_register_array, ar0144_write_reg,
      hf0]
    rw [if_pos he, if_pos he]
    simp [sendsOf]
  | cons p rest ih =>
    have h0 : 0 ≤ env.sendRet n (writeFrame p.reg p.val) := by
      have := h 0 (by simp)
      simpa using this
    have hw : ar0144_write_reg env n p.reg p.val =
        ⟨env.sendRet n (writeFrame p.reg p.val),
         [.i2cSend (writeFrame p.reg p.val)], n + 1⟩ := by
      simp only [ar0144_write_reg]
      rw [if_neg (by omega)]
    have ihh := ih (n + 1)
      (fun i hi => by
        have := h (i + 1) (by simpa using Nat.succ_lt_succ hi)
        simpa [Nat.add_assoc, Nat.add_comm 1 i] using this)
      (by
        have heq : n + 1 + rest.length = n + (rest.length + 1) := by omega
        rw [heq]
        simpa [List.length_cons] using hf)
    rw [List.cons_append]
    simp only [ar0144_set_register_array, hw, ihh]
    rw [if_neg (by simpa using h0)]
    simp [sendsOf, List.length_cons]
    omega

/-- The trace of `ar0144_read_reg` always starts with the send of the
2-byte big-endian register address. -/
theorem read_reg_trace_head (env : Env) (n : Nat) (reg : Nat) :
    ∃ tail, (ar0144_read_reg env n reg).trace =
      Event.i2cSend [hi8 reg, lo8 reg] :: tail := by
  simp only [ar0144_read_reg]
  split
  · exact ⟨_, rfl⟩
  · split
    · exact ⟨_, rfl⟩
    · exact ⟨_, rfl⟩

/-- When both bus transactions of a register read succeed, the read returns
the two received bytes composed big-endian. -/
theorem read_reg_ok (env : Env) (n : Nat) (reg : Nat)
    (h1 : 0 ≤ env.sendRet n [hi8 reg, lo8 reg])
    (h2 : 0 ≤ (env.recvRet (n + 1)).1) :
    ar0144_read_reg env n reg =
      ⟨.ok (((env.recvRet (n + 1)).2.1 % 256) * 256 +
            ((env.recvRet (n + 1)).2.2 % 256)),
       [.i2cSend [hi8 reg, lo8 reg], .i2cRecv 2], n + 2⟩ := by
  simp only [ar0144_read_reg]
  rw [if_neg (by omega), if_neg (by omega),
    byte_lor _ _ (Nat.mod_lt _ (by norm_num))]

/-- When every write succeeds, `ar0144_s_stream(enable=1)` returns 0 and
its trace is exactly the PLL sends, the 100 ms delay, then the lane/format,
geometry, binning, embedded-data and start-stream sends, in that order. -/
theorem s_stream_core_start_ok (env : Env)
    (h : ∀ n bytes, 0 ≤ env.sendRet n bytes) :
    ar0144_s_stream_core env 1 =
      (0, sendsOf ar0144at_pll_27mhz ++ [Event.sleepMs 100] ++
          sendsOf ar0144at_mipi_2lane_12bit ++
          sendsOf ar0144at_1280x800_60fps ++
          sendsOf ar0144at_context_b_2x2_binning ++
          sendsOf ar0144at_embedded_data_stats ++
          sendsOf ar0144at_start_stream) := by
  have hp : ar0144_set_register_array env 0 ar0144at_pll_27mhz =
      ⟨0, sendsOf ar0144at_pll_27mhz, 6⟩ :=
    sra_ok env ar0144at_pll_27mhz 0 (fun i hi => h _ _)
  have hm : ar0144_set_register_array env 6 ar0144at_mipi_2lane_12bit =
      ⟨0, sendsOf ar0144at_mipi_2lane_12bit, 15⟩ :=
    sra_ok env ar0144at_mipi_2lane_12bit 6 (fun i hi => h _ _)
  have hg : ar0144_set_register_array env 15 ar0144at_1280x800_60fps =
      ⟨0, sendsOf ar0144at_1280x800_60fps, 25⟩ :=
    sra_ok env ar0144at_1280x800_60fps 15 (fun i hi => h _ _)
  have hb : ar0144_set_register_array env 25 ar0144at_context_b_2x2_binning =
      ⟨0, sendsOf ar0144at_context_b_2x2_binning, 29⟩ :=
    sra_ok env ar0144at_context_b_2x2_binning 25 (fun i hi => h _ _)
  have hd : ar0144_set_register_array env 29 ar0144at_embedded_data_stats =
      ⟨0, sendsOf ar0144at_embedded_data_stats, 30⟩ :=
    sra_ok env ar0144at_embedded_data_stats 29 (fun i hi => h _ _)
  have hs : ar0144_set_register_array env 30 ar0144at_start_stream =
      ⟨0, sendsOf ar0144at_start_stream, 32⟩ :=
    sra_ok env ar0144at_start_stream 30 (fun i hi => h _ _)
  simp only [ar0144_s_stream_core, hp, hm, hg, hb, hd, hs]
  norm_num [List.append_assoc]

/-- Bus oracle on which every send succeeds with return 4 and every
receive succeeds, producing the correct identity bytes 0x13 0x56. -/
def envAllOk : Env := ⟨fun _ _ => 4, fun _ => (2, 0x13, 0x56)⟩

/-- Bus oracle whose sends return the byte count actually sent (the
behaviour of a fully successful `i2c_master_send`) and whose receives
produce the correct identity bytes. -/
def envLenOk : Env := ⟨fun _ bytes => (bytes.length : Int), fun _ => (2, 0x13, 0x56)⟩

/-- Bus oracle whose transactions succeed but whose receives produce the
bytes 0x00 0x00, composing to an identity value of 0. -/
def envWrongId : Env := ⟨fun _ _ => 4, fun _ => (2, 0, 0)⟩

/-- Bus oracle on which every send fails with -5 (-EIO). -/
def envFailAll : Env := ⟨fun _ _ => -5, fun _ => (0, 0, 0)⟩

/-- Bus oracle on which the third send (transaction index 2) fails with -5
and every other send succeeds. -/
def envFailThird : Env := ⟨fun n _ => if n = 2 then -5 else 4, fun _ => (0, 0, 0)⟩

/-- Zero-initialized device state, as left by `devm_kzalloc`. -/
def devFresh : Dev :=
  { fmt := ⟨0, 0, 0, 0, 0⟩, crop := ⟨0, 0, 0, 0⟩, streaming := false }

/-- A device state whose `streaming` flag is set, standing for a device
that the spec would consider to be in the `Streaming` state. -/
def devStreamingOn : Dev :=
  { fmt := ⟨0, 0, 0, 0, 0⟩, crop := ⟨0, 0, 0, 0⟩, streaming := true }

/-- The driver-owned state after a successful probe: the fixed format is
stored, the crop rectangle is still all-zero, streaming flag clear. -/
def probeResultDev : Dev :=
  { fmt := ar0144_default_fmt, crop := ⟨0, 0, 0, 0⟩, streaming := false }

/-- A two-entry register program failing nowhere; first program used by the
C3 counterexample, which fails at entry index 0 (address 0x3000). -/
def progA : List RegValue := [⟨0x3000, 0x0001⟩]

/-- Four-entry register program used by the C3 counterexample, which under
`envFailThird` fails at entry index 2 (address 0x1004). -/
def progB : List RegValue :=
  [⟨0x1000, 1⟩, ⟨0x1002, 2⟩, ⟨0x1004, 3⟩, ⟨0x1006, 4⟩]

/-- C1: from any device state in which every register write succeeds,
`ar0144_s_stream(enable=1)` applies the register programs to the transport
in exactly the order PLL program, 100 ms delay, lane/format program,
geometry/timing program, binning program, embedded-data-statistics
program, start-stream command program — no reordering, no omission — and
returns 0. -/
theorem s_stream_start_program_order (env : Env) (dev : Dev)
    (h : ∀ n bytes, 0 ≤ env.sendRet n bytes) :
    ar0144_s_stream env 1 dev =
      ⟨0, sendsOf ar0144at_pll_27mhz ++ [Event.sleepMs 100] ++
          sendsOf ar0144at_mipi_2lane_12bit ++
          sendsOf ar0144at_1280x800_60fps ++
          sendsOf ar0144at_context_b_2x2_binning ++
          sendsOf ar0144at_embedded_data_stats ++
          sendsOf ar0144at_start_stream, dev⟩ := by
  simp only [ar0144_s_stream, s_stream_core_start_ok env h]

/-- C1 witness: the ordering theorem applied to the concrete all-success
oracle and the fresh device. -/
theorem s_stream_start_program_order_witness :
    ar0144_s_stream envAllOk 1 devFresh =
      ⟨0, sendsOf ar0144at_pll_27mhz ++ [Event.sleepMs 100] ++
          sendsOf ar0144at_mipi_2lane_12bit ++
          sendsOf ar0144at_1280x800_60fps ++
          sendsOf ar0144at_context_b_2x2_binning ++
          sendsOf ar0144at_embedded_data_stats ++
          sendsOf ar0144at_start_stream, devFresh⟩ :=
  s_stream_start_program_order envAllOk devFresh (fun n bytes => by simp [envAllOk])

/-- C2 counterexample: `ar0144_s_stream(enable=1)` invoked on a device
already marked streaming — per the spec an invalid source state for
start() — does not fail: it returns 0 and performs 32 bus transactions
(the full register-program sequence), refuting the claim that operations
invoked from an invalid DeviceState deterministically fail with a
documented error and perform no register writes. -/
theorem start_from_invalid_state_still_writes :
    (ar0144_s_stream envAllOk 1 devStreamingOn).ret = 0
    ∧ ((ar0144_s_stream envAllOk 1 devStreamingOn).trace.filter
        isBusEvent).length = 32
    ∧ (ar0144_s_stream envAllOk 1 devStreamingOn).dev = devStreamingOn :=
  ⟨rfl, rfl, rfl⟩

/-- C2 amended: the driver keeps no device-state machine and performs no
source-state validation.  `ar0144_s_stream` and `ar0144_s_power` never
read the stored state: their return value and bus activity are functions
of the oracle and the flag alone, identical for any two device states,
the stored state is returned unchanged, and in particular a stream start
whose writes all succeed returns 0 from any state whatsoever. -/
theorem operations_do_not_check_device_state (env : Env)
    (enable onVal : Nat) (dev dev2 : Dev) :
    ar0144_s_stream env enable dev =
      ⟨(ar0144_s_stream_core env enable).1,
       (ar0144_s_stream_core env enable).2, dev⟩
    ∧ ar0144_s_power env onVal dev =
      ⟨(ar0144_s_power_core env onVal).1,
       (ar0144_s_power_core env onVal).2, dev⟩
    ∧ (ar0144_s_stream env enable dev).ret = (ar0144_s_stream env enable dev2).ret
    ∧ (ar0144_s_stream env enable dev).trace = (ar0144_s_stream env enable dev2).trace
    ∧ ((∀ n bytes, 0 ≤ env.sendRet n bytes) →
        (ar0144_s_stream env 1 dev).ret = 0) := by
  refine ⟨rfl, rfl, rfl, rfl, fun h => ?_⟩
  simp only [ar0144_s_stream, s_stream_core_start_ok env h]

/-- C2 amended witness: state-indifference and unconditional start applied
at concrete inputs. -/
theorem operations_do_not_check_device_state_witness :
    (ar0144_s_stream envAllOk 1 devStreamingOn).trace =
      (ar0144_s_stream envAllOk 1 devFresh).trace
    ∧ (ar0144_s_stream envAllOk 1 devStreamingOn).ret = 0 := by
  have hthm := operations_do_not_check_device_state envAllOk 1 1
    devStreamingOn devFresh
  exact ⟨hthm.2.2.2.1, hthm.2.2.2.2 (fun n bytes => by simp [envAllOk])⟩

/-- C3 counterexample: two runs of the runner that fail at different entry
indices (0 versus 2) and different addresses (0x3000 versus 0x1004)
return the identical value -5: the value returned is the raw bus error
and identifies neither the failing entry's index nor its address,
refuting the claim that apply returns a failure identifying the failing
entry's index and address.  (The bus-transaction counts 1 and 3 show the
stop-at-first-failure part is real.) -/
theorem apply_error_identifies_neither_index_nor_address :
    (ar0144_set_register_array envFailAll 0 progA).ret = -5
    ∧ (ar0144_set_register_array envFailThird 0 progB).ret = -5
    ∧ ((ar0144_set_register_array envFailAll 0 progA).trace.filter
        isBusEvent).length = 1
    ∧ ((ar0144_set_register_array envFailThird 0 progB).trace.filter
        isBusEvent).length = 3 :=
  ⟨rfl, rfl, rfl, rfl⟩

/-- C3 amended: for a program in which entries 0..k-1 succeed and entry k
fails with a negative error e, the runner performs exactly the writes for
entries 0 through k in order, never attempts the remaining entries, logs
the failing address and value through dev_err, and returns the raw bus
error e (which by the counterexample identifies neither index nor
address); on a program whose writes all succeed it performs all writes in
order and returns 0. -/
theorem apply_stops_at_first_failure :
    (∀ (env : Env) (n : Nat) (pre : List RegValue) (s : RegValue)
      (post : List RegValue) (e : Int),
      (∀ i (hi : i < pre.length),
        0 ≤ env.sendRet (n + i)
          (writeFrame (pre.get ⟨i, hi⟩).reg (pre.get ⟨i, hi⟩).val)) →
      env.sendRet (n + pre.length) (writeFrame s.reg s.val) = e → e < 0 →
      ar0144_set_register_array env n (pre ++ s :: post) =
        ⟨e, sendsOf pre ++
            [.i2cSend (writeFrame s.reg s.val), .devErrWrite e s.reg s.val],
         n + pre.length + 1⟩)
    ∧ (∀ (env : Env) (n : Nat) (settings : List RegValue),
      (∀ i (hi : i < settings.length),
        0 ≤ env.sendRet (n + i)
          (writeFrame (settings.get ⟨i, hi⟩).reg (settings.get ⟨i, hi⟩).val)) →
      ar0144_set_register_array env n settings =
        ⟨0, sendsOf settings, n + settings.length⟩) :=
  ⟨fun env n pre s post e h hf he => sra_fail env pre s post n e h hf he,
   fun env n settings h => sra_ok env settings n h⟩

/-- C3 amended witness: both halves applied at concrete programs — failure
at index 2 under `envFailThird`, and full success under `envAllOk`. -/
theorem apply_stops_at_first_failure_witness :
    ar0144_set_register_array envFailThird 0
        ([⟨0x1000, 1⟩, ⟨0x1002, 2⟩] ++ (⟨0x1004, 3⟩ : RegValue) :: [⟨0x1006, 4⟩]) =
      ⟨-5, sendsOf [⟨0x1000, 1⟩, ⟨0x1002, 2⟩] ++
           [.i2cSend (writeFrame 0x1004 3), .devErrWrite (-5) 0x1004 3],
       0 + ([(⟨0x1000, 1⟩ : RegValue), ⟨0x1002, 2⟩] : List RegValue).length + 1⟩
    ∧ ar0144_set_register_array envAllOk 0 progB =
        ⟨0, sendsOf progB, 0 + progB.length⟩ := by
  constructor
  · refine apply_stops_at_first_failure.1 envFailThird 0
      [⟨0x1000, 1⟩, ⟨0x1002, 2⟩] ⟨0x1004, 3⟩ [⟨0x1006, 4⟩] (-5) ?_ (by decide)
      (by decide)
    rintro (_ | (_ | i)) hi
    · simp [envFailThird]
    · simp [envFailThird]
    · exact absurd hi (by simp)
  · exact apply_stops_at_first_failure.2 envAllOk 0 progB (fun i hi => by simp [envAllOk])

/-- C4: when the identity read's two bus transactions succeed but the
composed value differs from `AR0144_ID_VAL`, power-up returns `-ENODEV`
(the identity-mismatch error), its trace is exactly the reset toggles,
the two delays, the identity read and the mismatch log — in particular
not a single entry of the recommended-settings program is written — and
the device state record is returned unchanged. -/
theorem power_up_identity_mismatch_aborts (env : Env) (dev : Dev)
    (h1 : 0 ≤ env.sendRet 0 [hi8 AR0144_ID_REG, lo8 AR0144_ID_REG])
    (h2 : 0 ≤ (env.recvRet 1).1)
    (h3 : ((env.recvRet 1).2.1 % 256) * 256 + ((env.recvRet 1).2.2 % 256) ≠
      AR0144_ID_VAL) :
    ar0144_s_power env 1 dev =
      ⟨-ENODEV,
       [.gpiodDirectionOutput 1, .sleepMs 2, .gpiodSetValue 0, .sleepMs 10,
        .i2cSend [hi8 AR0144_ID_REG, lo8 AR0144_ID_REG], .i2cRecv 2,
        .devErrId (((env.recvRet 1).2.1 % 256) * 256 +
                   ((env.recvRet 1).2.2 % 256)) AR0144_ID_VAL],
       dev⟩ := by
  have hr := read_reg_ok env 0 AR0144_ID_REG h1 (by simpa using h2)
  simp only [ar0144_s_power, ar0144_s_power_core]
  rw [if_neg (by norm_num : ¬(1 : Nat) = 0)]
  simp only [hr]
  rw [if_pos h3]
  simp

/-- C4 witness: the mismatch theorem applied to an oracle whose receive
yields the bytes 0x00 0x00 (identity value 0). -/
theorem power_up_identity_mismatch_aborts_witness :
    ar0144_s_power envWrongId 1 devFresh =
      ⟨-ENODEV,
       [.gpiodDirectionOutput 1, .sleepMs 2, .gpiodSetValue 0, .sleepMs 10,
        .i2cSend [0x30, 0x00], .i2cRecv 2, .devErrId 0 AR0144_ID_VAL],
       devFresh⟩ :=
  power_up_identity_mismatch_aborts envWrongId devFresh (by decide)
    (by decide) (by decide)

/-- C5 counterexample: `ar0144_set_format` invoked while the device is
streaming does not return any busy error: it succeeds with return value 0
and overwrites the active format (the stored format changes from the
zero format to the fixed format), refuting the claim that set_format
returns `FormatError::Busy` and leaves the active format unchanged when
the device state is Streaming. -/
theorem set_format_succeeds_while_streaming :
    ar0144_set_format devStreamingOn V4L2_SUBDEV_FORMAT_ACTIVE =
      some (0, ar0144_default_fmt,
        { devStreamingOn with fmt := ar0144_default_fmt })
    ∧ devStreamingOn.fmt ≠ ar0144_default_fmt :=
  ⟨rfl, by decide⟩

/-- C5 amended: for every requested width, height and pixel code (the code
reads none of them) and every device state — including a streaming one —
set_format succeeds with return value 0, stores the fixed 1280x800
single-code format as the active format and returns it; no busy check
exists. -/
theorem set_format_always_returns_fixed_format (dev : Dev) (which : Nat)
    (h : which = V4L2_SUBDEV_FORMAT_TRY ∨ which = V4L2_SUBDEV_FORMAT_ACTIVE) :
    ar0144_set_format dev which =
      some (0, ar0144_default_fmt, { dev with fmt := ar0144_default_fmt }) := by
  rcases h with h | h <;> subst h <;> rfl

/-- C5 amended witness: the fixed-format theorem applied to the streaming
device with the ACTIVE variant. -/
theorem set_format_always_returns_fixed_format_witness :
    ar0144_set_format devStreamingOn V4L2_SUBDEV_FORMAT_ACTIVE =
      some (0, ar0144_default_fmt,
        { devStreamingOn with fmt := ar0144_default_fmt }) :=
  set_format_always_returns_fixed_format devStreamingOn
    V4L2_SUBDEV_FORMAT_ACTIVE (Or.inr rfl)

/-- C6: in every power-up run, the trace begins with: reset asserted, a
2 ms hold (at least the documented 1 ms minimum), reset deasserted, a
10 ms hold (at least the documented 10 ms settle), and only then the
first bus transaction — the send of the identity register address; none
of the four preceding events is a bus transaction. -/
theorem power_up_reset_and_settle_before_bus (env : Env) (dev : Dev) :
    ∃ rest,
      (ar0144_s_power env 1 dev).trace =
        [Event.gpiodDirectionOutput 1, Event.sleepMs 2,
         Event.gpiodSetValue 0, Event.sleepMs 10] ++
          Event.i2cSend [hi8 AR0144_ID_REG, lo8 AR0144_ID_REG] :: rest
      ∧ (∀ ev ∈ ([Event.gpiodDirectionOutput 1, Event.sleepMs 2,
          Event.gpiodSetValue 0, Event.sleepMs 10] : List Event),
          isBusEvent ev = false)
      ∧ 1 ≤ 2 ∧ 10 ≤ 10 := by
  obtain ⟨tail, htail⟩ := read_reg_trace_head env 0 AR0144_ID_REG
  simp only [ar0144_s_power, ar0144_s_power_core]
  rw [if_neg (by norm_num : ¬(1 : Nat) = 0)]
  split
  next e heq =>
    exact ⟨tail, by simp [htail], by decide, by norm_num, by norm_num⟩
  next v heq =>
    split
    next hv =>
      exact ⟨tail ++ [Event.devErrId v AR0144_ID_VAL], by simp [htail],
        by decide, by norm_num, by norm_num⟩
    next hv =>
      exact ⟨tail ++ (ar0144_set_register_array env
          (ar0144_read_reg env 0 AR0144_ID_REG).next
          ar0144at_rev4_recommended_setting).trace,
        by simp [htail], by decide, by norm_num, by norm_num⟩

/-- C7: the transport write sends exactly the 4-byte frame [address high,
address low, value high, value low]; a successful transport read first
sends the 2-byte big-endian address, then receives 2 bytes, and returns
the 16-bit value composed big-endian (first received byte in the high 8
bits, second in the low 8 bits). -/
theorem transport_frame_layout :
    (∀ (env : Env) (n reg val : Nat),
      sendPayloads (ar0144_write_reg env n reg val).trace =
        [[hi8 reg, lo8 reg, hi8 val, lo8 val]])
    ∧ (∀ (env : Env) (n reg v : Nat),
      (ar0144_read_reg env n reg).res = Except.ok v →
        (ar0144_read_reg env n reg).trace =
          [Event.i2cSend [hi8 reg, lo8 reg], Event.i2cRecv 2]
        ∧ v = ((env.recvRet (n + 1)).2.1 % 256) * 256 +
              ((env.recvRet (n + 1)).2.2 % 256)) := by
  constructor
  · intro env n reg val
    simp only [ar0144_write_reg, writeFrame]
    split <;> simp [sendPayloads]
  · intro env n reg v hok
    by_cases hc1 : env.sendRet n [hi8 reg, lo8 reg] < 0
    · exfalso
      have hres : (ar0144_read_reg env n reg).res =
          Except.error (env.sendRet n [hi8 reg, lo8 reg]) := by
        simp only [ar0144_read_reg]
        rw [if_pos hc1]
      rw [hres] at hok
      exact Except.noConfusion hok
    · by_cases hc2 : (env.recvRet (n + 1)).1 < 0
      · exfalso
        have hres : (ar0144_read_reg env n reg).res =
            Except.error (env.recvRet (n + 1)).1 := by
          simp only [ar0144_read_reg]
          rw [if_neg hc1, if_pos hc2]
        rw [hres] at hok
        exact Except.noConfusion hok
      · have hr := read_reg_ok env n reg (by omega) (by omega)
        rw [hr] at hok ⊢
        refine ⟨rfl, ?_⟩
        simpa using hok.symm

/-- C7 witness: the frame-layout theorem at a concrete register address
and value, with the read succeeding and composing 0x13 0x56 to 0x1356. -/
theorem transport_frame_layout_witness :
    sendPayloads (ar0144_write_reg envAllOk 0 0x3000 0x1234).trace =
      [[0x30, 0x00, 0x12, 0x34]]
    ∧ ((ar0144_read_reg envAllOk 0 0x3000).trace =
        [Event.i2cSend [0x30, 0x00], Event.i2cRecv 2]
       ∧ (0x1356 : Nat) = ((envAllOk.recvRet 1).2.1 % 256) * 256 +
           ((envAllOk.recvRet 1).2.2 % 256)) :=
  ⟨transport_frame_layout.1 envAllOk 0 0x3000 0x1234,
   transport_frame_layout.2 envAllOk 0 0x3000 0x1356 rfl⟩

/-- C8 counterexample: after a fully successful probe, the crop region
returned by get_selection with target crop is the all-zero rectangle
(left 0, top 0, width 0, height 0) — `devm_kzalloc` zero-fills it and
nothing in the driver ever initializes it — which differs from the full
1280x800 sensor array rectangle, refuting the claim that the crop region
defaults to the full sensor array. -/
theorem crop_after_probe_is_zero_rectangle :
    ar0144_probe envAllOk = Except.ok probeResultDev
    ∧ ar0144_get_selection probeResultDev V4L2_SEL_TGT_CROP
        V4L2_SUBDEV_FORMAT_ACTIVE = some (Except.ok ⟨0, 0, 0, 0⟩)
    ∧ probeResultDev.crop ≠ (⟨0, 0, 1280, 800⟩ : Rect) :=
  ⟨rfl, rfl, by decide⟩

/-- C8 amended: after any successful probe and before any mutation, the
crop region is the all-zero rectangle — probe never writes it, so it
keeps its `devm_kzalloc` zero value — and get_selection with target crop
returns exactly that zero rectangle, not the full sensor array. -/
theorem probe_crop_defaults_to_zero (env : Env) (dev : Dev)
    (h : ar0144_probe env = Except.ok dev) :
    dev.crop = (⟨0, 0, 0, 0⟩ : Rect)
    ∧ ar0144_get_selection dev V4L2_SEL_TGT_CROP V4L2_SUBDEV_FORMAT_ACTIVE =
        some (Except.ok (⟨0, 0, 0, 0⟩ : Rect)) := by
  simp only [ar0144_probe] at h
  split at h
  · exact Except.noConfusion h
  · injection h with h2
    have hdev : dev = probeResultDev := by rw [← h2]; rfl
    rw [hdev]
    exact ⟨rfl, rfl⟩

/-- C8 amended witness: the zero-crop theorem applied to the all-success
oracle and the state it produces. -/
theorem probe_crop_defaults_to_zero_witness :
    probeResultDev.crop = (⟨0, 0, 0, 0⟩ : Rect)
    ∧ ar0144_get_selection probeResultDev V4L2_SEL_TGT_CROP
        V4L2_SUBDEV_FORMAT_ACTIVE = some (Except.ok (⟨0, 0, 0, 0⟩ : Rect)) :=
  probe_crop_defaults_to_zero envAllOk probeResultDev rfl

/-- C9: the TRY and ACTIVE variants of the pad accessors resolve to the
same single device-owned storage: a set_format with the TRY variant
stores the fixed format that a subsequent get_format with the ACTIVE
variant returns (the TRY/ACTIVE distinction does not isolate trial
state), the crop accessor behaves identically, and any other variant
value resolves to the NULL storage pointer (`none`). -/
theorem try_and_active_resolve_to_same_storage :
    (∀ dev : Dev, ∃ dev2 : Dev,
      ar0144_set_format dev V4L2_SUBDEV_FORMAT_TRY =
        some (0, ar0144_default_fmt, dev2)
      ∧ ar0144_get_format dev2 V4L2_SUBDEV_FORMAT_ACTIVE =
        some (0, ar0144_default_fmt)
      ∧ ar0144_get_selection dev2 V4L2_SEL_TGT_CROP V4L2_SUBDEV_FORMAT_ACTIVE =
        some (Except.ok dev.crop))
    ∧ (∀ which : Nat, which ≠ V4L2_SUBDEV_FORMAT_TRY →
        which ≠ V4L2_SUBDEV_FORMAT_ACTIVE →
        __ar0144_get_pad_format which = none
        ∧ __ar0144_get_pad_crop which = none) := by
  constructor
  · intro dev
    exact ⟨{ dev with fmt := ar0144_default_fmt }, rfl, rfl, rfl⟩
  · intro which h1 h2
    simp only [V4L2_SUBDEV_FORMAT_TRY, V4L2_SUBDEV_FORMAT_ACTIVE] at h1 h2
    constructor <;>
      simp [__ar0144_get_pad_format, __ar0144_get_pad_crop,
        V4L2_SUBDEV_FORMAT_TRY, V4L2_SUBDEV_FORMAT_ACTIVE, h1, h2]

/-- C9 witness: the shared-storage theorem at the fresh device and at the
variant value 2 (neither TRY nor ACTIVE). -/
theorem try_and_active_resolve_to_same_storage_witness :
    (∃ dev2 : Dev,
      ar0144_set_format devFresh V4L2_SUBDEV_FORMAT_TRY =
        some (0, ar0144_default_fmt, dev2)
      ∧ ar0144_get_format dev2 V4L2_SUBDEV_FORMAT_ACTIVE =
        some (0, ar0144_default_fmt)
      ∧ ar0144_get_selection dev2 V4L2_SEL_TGT_CROP V4L2_SUBDEV_FORMAT_ACTIVE =
        some (Except.ok devFresh.crop))
    ∧ (__ar0144_get_pad_format 2 = none ∧ __ar0144_get_pad_crop 2 = none) :=
  ⟨try_and_active_resolve_to_same_storage.1 devFresh,
   try_and_active_resolve_to_same_storage.2 2 (by decide) (by decide)⟩

/-- C10: on a transport whose sends all succeed returning the byte count
actually sent and whose receives yield the correct identity bytes, the
single-register write returns the positive byte count 4, yet the runner
normalizes success to 0, and every public control operation — stream
start, stream stop, power-up, set_format, get_format, get_selection —
returns exactly 0: the positive write return is never propagated. -/
theorem success_paths_return_zero (env : Env) (dev : Dev)
    (hsend : ∀ n bytes, env.sendRet n bytes = (bytes.length : Int))
    (hrecv : ∀ n, env.recvRet n = (2, 0x13, 0x56)) :
    (∀ n reg val, (ar0144_write_reg env n reg val).ret = 4)
    ∧ (∀ n settings, (ar0144_set_register_array env n settings).ret = 0)
    ∧ (ar0144_s_stream env 1 dev).ret = 0
    ∧ (ar0144_s_stream env 0 dev).ret = 0
    ∧ (ar0144_s_power env 1 dev).ret = 0
    ∧ ar0144_set_format dev V4L2_SUBDEV_FORMAT_ACTIVE =
        some (0, ar0144_default_fmt, { dev with fmt := ar0144_default_fmt })
    ∧ ar0144_get_format dev V4L2_SUBDEV_FORMAT_ACTIVE = some (0, dev.fmt)
    ∧ ar0144_get_selection dev V4L2_SEL_TGT_CROP V4L2_SUBDEV_FORMAT_ACTIVE =
        some (Except.ok dev.crop) := by
  have hpos : ∀ n bytes, 0 ≤ env.sendRet n bytes := fun n bytes => by
    rw [hsend]
    exact Int.natCast_nonneg _
  refine ⟨?_, ?_, ?_, ?_, ?_, rfl, rfl, rfl⟩
  · intro n reg val
    simp only [ar0144_write_reg]
    rw [if_neg (by have := hpos n (writeFrame reg val); omega)]
    rw [hsend]
    rfl
  · intro n settings
    rw [sra_ok env settings n (fun i hi => hpos _ _)]
  · simp only [ar0144_s_stream, s_stream_core_start_ok env hpos]
  · have hstop := sra_ok env ar0144at_stop_stream 0 (fun i hi => hpos _ _)
    simp [ar0144_s_stream, ar0144_s_stream_core, hstop]
  · have hr := read_reg_ok env 0 AR0144_ID_REG (hpos _ _)
      (by rw [hrecv]; norm_num)
    rw [hrecv] at hr
    norm_num at hr
    simp only [ar0144_s_power, ar0144_s_power_core]
    rw [if_neg (by norm_num : ¬(1 : Nat) = 0)]
    simp only [hr]
    rw [if_neg (by norm_num [AR0144_ID_VAL]),
      sra_ok env ar0144at_rev4_recommended_setting 2 (fun i hi => hpos _ _)]

/-- C10 witness: the normalize-to-zero theorem applied to the byte-count
oracle: the raw write returns 4 while stream start and power-up return 0. -/
theorem success_paths_return_zero_witness :
    (ar0144_write_reg envLenOk 0 0x3000 0x0001).ret = 4
    ∧ (ar0144_s_stream envLenOk 1 devFresh).ret = 0
    ∧ (ar0144_s_power envLenOk 1 devFresh).ret = 0 :=
  ⟨(success_paths_return_zero envLenOk devFresh (fun _ _ => rfl)
      (fun _ => rfl)).1 0 0x3000 0x0001,
   (success_paths_return_zero envLenOk devFresh (fun _ _ => rfl)
      (fun _ => rfl)).2.2.1,
   (success_paths_return_zero envLenOk devFresh (fun _ _ => rfl)
      (fun _ => rfl)).2.2.2.2.1⟩

end AR0144
